import Mathlib

/-!
Verification of the DepremGozlem refresh pipeline.

The development shallowly embeds the pure core of `deprem.py`:
settings loading (`load_settings`), the HTTP payload shape handling
(`api_get`), the per-record normalisation and SQLite upsert
(`db_upsert_earthquakes`), the recency query (`db_fetch_last`), the
refresh cycle (`MainWindow.refresh_all` plus the parts of
`NearTab.refresh_data` and `MapTab.refresh` it drives).

Dynamic Python values are modelled by the inductive `PyVal`; machine
floats are modelled by `Rat` (the source only compares, defaults and
stores them); exceptions are modelled by `Except Unit`; the SQLite
table is modelled by a list of rows in rowid (insertion) order.
-/

/-- A hashable scalar Python value, the only kind of value this program
ever uses as a dictionary key: JSON object keys are strings, and
`dict.update` only accepts hashable keys (lists/dicts raise before any
comparison happens). -/
inductive PyScalar where
  | snone
  | sbool (b : Bool)
  | snum (q : ℚ)
  | sstr (s : String)
deriving DecidableEq

/-- A JSON / Python value as the program distinguishes them.  Python ints
and floats are collapsed into `vnum` (the source never distinguishes
them); dictionaries are association lists in insertion order with
scalar keys (see `PyScalar`). -/
inductive PyVal where
  | vnone
  | vbool (b : Bool)
  | vnum (q : ℚ)
  | vstr (s : String)
  | vlist (xs : List PyVal)
  | vdict (kvs : List (PyScalar × PyVal))

open PyVal PyScalar

/-- The scalar values, embedded back into `PyVal`. -/
def scalarVal : PyScalar → PyVal
  | snone => vnone
  | sbool b => vbool b
  | snum q => vnum q
  | sstr s => vstr s

/-- Python truthiness: `None`, `False`, `0`, the empty string, list and
dict are falsy, everything else is truthy. -/
def truthy : PyVal → Bool
  | vnone => false
  | vbool b => b
  | vnum q => decide (q ≠ 0)
  | vstr s => !s.isEmpty
  | vlist xs => !xs.isEmpty
  | vdict kvs => !kvs.isEmpty

/-- Python `a or b`: `a` when truthy, else `b`. -/
def pyOr (a b : PyVal) : PyVal := if truthy a then a else b

/-- First-match association lookup.  Python dicts never hold duplicate
keys, so on faithfully built dicts this agrees with dict lookup. -/
def assocLookup : List (PyScalar × PyVal) → PyScalar → Option PyVal
  | [], _ => none
  | (k1, v1) :: rest, k => if k1 = k then some v1 else assocLookup rest k

/-- `d.get(k, dflt)` on a dict represented as an association list. -/
def assocLookupD (kvs : List (PyScalar × PyVal)) (k : PyScalar) (dflt : PyVal) :
    PyVal :=
  (assocLookup kvs k).getD dflt

/-- `e.get(k)`: returns `None` when the key is missing, raises
`AttributeError` when `e` is not a dict. -/
def pyGet (e : PyVal) (k : PyScalar) : Except Unit PyVal :=
  match e with
  | vdict kvs => .ok ((assocLookup kvs k).getD vnone)
  | _ => .error ()

/-- `e.get(k, dflt)`: like `pyGet` with an explicit default. -/
def pyGetD (e : PyVal) (k : PyScalar) (dflt : PyVal) : Except Unit PyVal :=
  match e with
  | vdict kvs => .ok ((assocLookup kvs k).getD dflt)
  | _ => .error ()

/-- `len(v)`: defined on strings, lists and dicts, `TypeError` otherwise. -/
def pyLen : PyVal → Except Unit ℕ
  | vstr s => .ok s.length
  | vlist xs => .ok xs.length
  | vdict kvs => .ok kvs.length
  | _ => .error ()

/-- `v[i]` for a natural index `i`: list indexing (`IndexError` out of
range), string indexing, dict key lookup (`KeyError` when the integer is
not a key), `TypeError` otherwise. -/
def pyIndexNat : PyVal → ℕ → Except Unit PyVal
  | vlist xs, i =>
    match xs.get? i with
    | some x => .ok x
    | none => .error ()
  | vstr s, i =>
    match s.data.get? i with
    | some c => .ok (vstr (String.singleton c))
    | none => .error ()
  | vdict kvs, i =>
    match assocLookup kvs (snum (i : ℚ)) with
    | some v => .ok v
    | none => .error ()
  | _, _ => .error ()

/-- Value of a decimal digit character. -/
def charDigit (c : Char) : Option ℕ :=
  if c.isDigit then some (c.toNat - 48) else none

/-- Accumulating decimal read; `none` on any non-digit. -/
def digitsValAux : ℕ → List Char → Option ℕ
  | acc, [] => some acc
  | acc, c :: cs =>
    match charDigit c with
    | some d => digitsValAux (acc * 10 + d) cs
    | none => none

/-- Split a leading sign character; `true` means negative. -/
def splitSign : List Char → Bool × List Char
  | '-' :: cs => (true, cs)
  | '+' :: cs => (false, cs)
  | cs => (false, cs)

/-- Exponent digits of a float literal, applied to `base`. -/
def parseExpDigits (base : ℚ) (cs : List Char) : Option ℚ :=
  let (neg, ds) := splitSign cs
  if ds.isEmpty then none
  else
    match digitsValAux 0 ds with
    | some e => some (if neg then base / 10 ^ e else base * 10 ^ e)
    | none => none

/-- Optional `e`/`E` exponent suffix of a float literal. -/
def parseExponent (base : ℚ) : List Char → Option ℚ
  | [] => some base
  | 'e' :: cs => parseExpDigits base cs
  | 'E' :: cs => parseExpDigits base cs
  | _ => none

/-- Unsigned part of a Python float literal:
`digits [. digits] [exp]` or `. digits [exp]`.  (Models the everyday
subset of CPython `float(str)`; underscores, `inf` and `nan` are outside
the subset and no claim depends on them.) -/
def parseUnsignedFloat (cs : List Char) : Option ℚ :=
  let intPart := cs.takeWhile Char.isDigit
  let rest := cs.dropWhile Char.isDigit
  match rest with
  | [] =>
    if intPart.isEmpty then none
    else (digitsValAux 0 intPart).map (fun n => (n : ℚ))
  | '.' :: rest2 =>
    let fracPart := rest2.takeWhile Char.isDigit
    let rest3 := rest2.dropWhile Char.isDigit
    if intPart.isEmpty && fracPart.isEmpty then none
    else
      match digitsValAux 0 intPart, digitsValAux 0 fracPart with
      | some ip, some fp =>
        parseExponent ((ip : ℚ) + (fp : ℚ) / 10 ^ fracPart.length) rest3
      | _, _ => none
  | _ =>
    if intPart.isEmpty then none
    else
      match digitsValAux 0 intPart with
      | some ip => parseExponent (ip : ℚ) rest
      | none => none

/-- CPython `float(str)`: strip spaces, optional sign, numeric literal. -/
def pyFloatOfString (s : String) : Option ℚ :=
  let cs := ((s.data.dropWhile (fun c => c = ' ')).reverse.dropWhile
    (fun c => c = ' ')).reverse
  let (neg, rest) := splitSign cs
  (parseUnsignedFloat rest).map (fun q => if neg then -q else q)

/-- CPython `int(str)`: strip spaces, optional sign, decimal digits only
(`int("5.5")` raises, hence no fraction). -/
def pyIntOfString (s : String) : Option ℤ :=
  let cs := ((s.data.dropWhile (fun c => c = ' ')).reverse.dropWhile
    (fun c => c = ' ')).reverse
  let (neg, ds) := splitSign cs
  if ds.isEmpty then none
  else
    match digitsValAux 0 ds with
    | some n => some (if neg then -(n : ℤ) else (n : ℤ))
    | none => none

/-- `float(v)`: numbers are kept, booleans become 0/1, strings are
parsed, everything else raises `TypeError`. -/
def floatOf : PyVal → Except Unit ℚ
  | vnum q => .ok q
  | vbool b => .ok (if b then 1 else 0)
  | vstr s =>
    match pyFloatOfString s with
    | some q => .ok q
    | none => .error ()
  | _ => .error ()

/-- Truncation of a rational toward zero, the rounding of Python `int(float)`. -/
def ratTrunc (q : ℚ) : ℤ :=
  if 0 ≤ q.num then ((q.num.toNat / q.den : ℕ) : ℤ)
  else -(((-q.num).toNat / q.den : ℕ) : ℤ)

/-- `int(v)`: truncates numbers, parses integer strings, 0/1 for
booleans, raises otherwise. -/
def intOf : PyVal → Except Unit ℤ
  | vnum q => .ok (ratTrunc q)
  | vbool b => .ok (if b then 1 else 0)
  | vstr s =>
    match pyIntOfString s with
    | some n => .ok n
    | none => .error ()
  | _ => .error ()

/-- Minimal JSON string escaping (quote and backslash), used by the
`json.dumps` model below. -/
def escapeChar (c : Char) : String :=
  if c = '\"' then "\\\"" else if c = '\\' then "\\\\" else String.singleton c

/-- Escape a whole string for JSON output. -/
def escapeStr (s : String) : String :=
  String.join (s.data.map escapeChar)

/-- `json.dumps` of a dict key: JSON object keys are always emitted as
quoted strings (non-string scalar keys are coerced to their text form;
the exact text of the coercion is a display detail no claim depends on). -/
def dumpsKey : PyScalar → String
  | sstr s => "\"" ++ escapeStr s ++ "\""
  | snone => "\"null\""
  | sbool true => "\"true\""
  | sbool false => "\"false\""
  | snum q => "\"" ++ toString q.num ++
      (if q.den = 1 then "" else "/" ++ toString q.den) ++ "\""

/-- Text form of a number (display detail; SQLite/JSON render floats in
decimal, the model renders the rational exactly — no claim depends on
the digits). -/
def numText (q : ℚ) : String :=
  toString q.num ++ (if q.den = 1 then "" else "/" ++ toString q.den)

mutual
/-- `json.dumps(v, ensure_ascii=False)` with the default separators. -/
def dumps : PyVal → String
  | PyVal.vnone => "null"
  | PyVal.vbool true => "true"
  | PyVal.vbool false => "false"
  | PyVal.vnum q => numText q
  | PyVal.vstr s => "\"" ++ escapeStr s ++ "\""
  | PyVal.vlist xs => "[" ++ dumpsList xs ++ "]"
  | PyVal.vdict kvs => "\x7b" ++ dumpsKVs kvs ++ "\x7d"

/-- Comma-separated dump of a JSON array body. -/
def dumpsList : List PyVal → String
  | [] => ""
  | [x] => dumps x
  | x :: y :: xs => dumps x ++ ", " ++ dumpsList (y :: xs)

/-- Comma-separated dump of a JSON object body. -/
def dumpsKVs : List (PyScalar × PyVal) → String
  | [] => ""
  | [(k, v)] => dumpsKey k ++ ": " ++ dumps v
  | (k, v) :: p :: kvs => dumpsKey k ++ ": " ++ dumps v ++ ", " ++ dumpsKVs (p :: kvs)
end

/-- Keys consumed from a raw record (deprem.py lines 191-209). -/
def kEarthquakeId : PyScalar := sstr ("earthquake_id")

/-- Key of the source agency field. -/
def kProvider : PyScalar := sstr ("provider")

/-- Key of the human-readable location label. -/
def kTitle : PyScalar := sstr ("title")

/-- Key of the provider timestamp display string. -/
def kDate : PyScalar := sstr ("date")

/-- Fallback key of the provider timestamp display string. -/
def kDateTime : PyScalar := sstr ("date_time")

/-- Key of the magnitude field. -/
def kMag : PyScalar := sstr ("mag")

/-- Key of the depth field. -/
def kDepth : PyScalar := sstr ("depth")

/-- Key of the GeoJSON sub-object. -/
def kGeojson : PyScalar := sstr ("geojson")

/-- Key of the coordinate array inside the GeoJSON sub-object. -/
def kCoordinates : PyScalar := sstr ("coordinates")

/-- Key of the provider "created" epoch timestamp. -/
def kCreatedAt : PyScalar := sstr ("created_at")

/-- Key of the nested location-properties sub-object. -/
def kLocationProperties : PyScalar := sstr ("location_properties")

/-- Key of the closest-city sub-record. -/
def kClosestCity : PyScalar := sstr ("closestCity")

/-- Key of a name field in nested sub-records. -/
def kName : PyScalar := sstr ("name")

/-- Key of the closest-city code. -/
def kCityCode : PyScalar := sstr ("cityCode")

/-- Key of the closest-city distance. -/
def kDistance : PyScalar := sstr ("distance")

/-- Key of the closest-city population. -/
def kPopulation : PyScalar := sstr ("population")

/-- Key of the epicentre sub-record. -/
def kEpiCenter : PyScalar := sstr ("epiCenter")

/-- Key of the airports list. -/
def kAirports : PyScalar := sstr ("airports")

/-- Key of the envelope array in an API response. -/
def kResult : PyScalar := sstr ("result")

/-- Whether sqlite3 can bind the value as a parameter: `None`, numbers,
booleans and strings bind; lists and dicts raise `InterfaceError`. -/
def bindable : PyVal → Bool
  | vlist _ => false
  | vdict _ => false
  | _ => true

/-- One row of the `earthquakes` table (deprem.py lines 164-182).  The
primary key column has TEXT affinity and is stored as text; the other
TEXT/INTEGER/REAL columns keep the bound Python value (affinity
conversion of non-key columns is not modelled — no claim depends on it). -/
structure Row where
  earthquake_id : String
  provider : PyVal
  title : PyVal
  date : PyVal
  mag : ℚ
  depth : ℚ
  lon : ℚ
  lat : ℚ
  created_at : ℤ
  closestCity_name : PyVal
  closestCity_code : PyVal
  closestCity_distance : PyVal
  closestCity_population : PyVal
  epiCenter_name : PyVal
  airports_json : String

/-- `gid = e.get("earthquake_id") or ""`, then bound into the TEXT
primary-key column: strings kept, numbers/booleans converted by TEXT
affinity, lists/dicts fail to bind.  `None` cannot reach the binding
because falsy values were already replaced by `""`. -/
def gidOf (e : PyVal) : Except Unit String := do
  let v ← pyGet e kEarthquakeId
  match pyOr v (vstr ("")) with
  | vstr s => pure s
  | vnum q => pure (numText q)
  | vbool b => pure (if b then "1" else "0")
  | _ => .error ()

/-- `e.get("provider") or ""` (line 192). -/
def provOf (e : PyVal) : Except Unit PyVal := do
  let v ← pyGet e kProvider
  pure (pyOr v (vstr ("")))

/-- `e.get("title") or ""` (line 193). -/
def titleOf (e : PyVal) : Except Unit PyVal := do
  let v ← pyGet e kTitle
  pure (pyOr v (vstr ("")))

/-- `e.get("date") or e.get("date_time") or ""` (line 194). -/
def dateOf (e : PyVal) : Except Unit PyVal := do
  let v1 ← pyGet e kDate
  let v2 ← pyGet e kDateTime
  pure (pyOr v1 (pyOr v2 (vstr (""))))

/-- `float(e.get("mag") or 0)` (line 195). -/
def magOfRaw (e : PyVal) : Except Unit ℚ := do
  let v ← pyGet e kMag
  floatOf (pyOr v (vnum 0))

/-- `float(e.get("depth") or 0)` (line 196). -/
def depthOf (e : PyVal) : Except Unit ℚ := do
  let v ← pyGet e kDepth
  floatOf (pyOr v (vnum 0))

/-- Lines 197-199: resolve the coordinate array and read longitude and
latitude, defaulting each to `0.0` when the array is too short. -/
def coordsOf (e : PyVal) : Except Unit (ℚ × ℚ) :=
  (pyGetD e kGeojson (vdict [])).bind fun g =>
  (pyGetD g kCoordinates (vlist [vnum 0, vnum 0])).bind fun geo =>
  (pyLen geo).bind fun n =>
  (if 0 < n then (pyIndexNat geo 0).bind floatOf else .ok 0).bind fun lon =>
  (if 1 < n then (pyIndexNat geo 1).bind floatOf else .ok 0).bind fun lat =>
  .ok (lon, lat)

/-- `int(e.get("created_at") or int(time.time()))` (line 200); the wall
clock is passed in as `now`. -/
def createdAtOf (now : ℤ) (e : PyVal) : Except Unit ℤ := do
  let v ← pyGet e kCreatedAt
  intOf (pyOr v (vnum (now : ℚ)))

/-- `lp = e.get("location_properties", {}) or {}` (line 201). -/
def lpOf (e : PyVal) : Except Unit PyVal := do
  let v ← pyGetD e kLocationProperties (vdict [])
  pure (pyOr v (vdict []))

/-- `cc = lp.get("closestCity", {}) or {}` (line 202). -/
def ccOf (lp : PyVal) : Except Unit PyVal := do
  let v ← pyGetD lp kClosestCity (vdict [])
  pure (pyOr v (vdict []))

/-- `epi = lp.get("epiCenter", {}) or {}` (line 207). -/
def epiOf (lp : PyVal) : Except Unit PyVal := do
  let v ← pyGetD lp kEpiCenter (vdict [])
  pure (pyOr v (vdict []))

/-- `airports = lp.get("airports", []) or []` (line 209). -/
def airportsOf (lp : PyVal) : Except Unit PyVal := do
  let v ← pyGetD lp kAirports (vlist [])
  pure (pyOr v (vlist []))

/-- The body of the per-record loop of `db_upsert_earthquakes`
(lines 190-233): every field extraction, `json.dumps` of the airports
list, and the sqlite3 parameter binding.  An `error` result models the
per-record `except` branch: the record is logged and skipped. -/
def normalizeRecord (now : ℤ) (e : PyVal) : Except Unit Row := do
  let gid ← gidOf e
  let prov ← provOf e
  let title ← titleOf e
  let date ← dateOf e
  let mag ← magOfRaw e
  let depth ← depthOf e
  let lonlat ← coordsOf e
  let ca ← createdAtOf now e
  let lp ← lpOf e
  let cc ← ccOf lp
  let ccName ← pyGet cc kName
  let ccCode ← pyGet cc kCityCode
  let ccDist ← pyGet cc kDistance
  let ccPop ← pyGet cc kPopulation
  let epi ← epiOf lp
  let epiName ← pyGet epi kName
  let airports ← airportsOf lp
  if bindable prov && bindable title && bindable date && bindable ccName &&
      bindable ccCode && bindable ccDist && bindable ccPop && bindable epiName then
    pure ⟨gid, prov, title, date, mag, depth, lonlat.1, lonlat.2, ca,
      ccName, ccCode, ccDist, ccPop, epiName, dumps airports⟩
  else .error ()

/-- `INSERT ... ON CONFLICT(earthquake_id) DO UPDATE SET ...`
(lines 211-233): replace the row with the same key in place (an SQL
UPDATE keeps the rowid), otherwise append. -/
def upsertRow (r : Row) (store : List Row) : List Row :=
  if store.any (fun x => x.earthquake_id = r.earthquake_id) then
    store.map (fun x => if x.earthquake_id = r.earthquake_id then r else x)
  else store ++ [r]

/-- `db_upsert_earthquakes(items)` (lines 186-236): each record is
normalised and upserted; a record whose extraction or binding raises is
skipped and the rest of the batch still commits. -/
def db_upsert_earthquakes (now : ℤ) (items : List PyVal) (store : List Row) :
    List Row :=
  items.foldl
    (fun st e =>
      match normalizeRecord now e with
      | .ok r => upsertRow r st
      | .error _ => st)
    store

/-- The `earthquake_id` column values of a store. -/
def storedIds (store : List Row) : List String :=
  store.map (fun r => r.earthquake_id)

/-- The primary-key invariant of the `earthquakes` table. -/
def uniqueKeys (store : List Row) : Prop := (storedIds store).Nodup

/-- The rows holding a given id. -/
def rowsWithId (store : List Row) (k : String) : List Row :=
  store.filter (fun r => r.earthquake_id = k)

/-- The `ORDER BY created_at DESC` comparison. -/
def moreRecent (a b : Row) : Prop := b.created_at ≤ a.created_at

instance : DecidableRel moreRecent := fun a b =>
  inferInstanceAs (Decidable (b.created_at ≤ a.created_at))

instance : IsTotal Row moreRecent :=
  ⟨fun a b => le_total b.created_at a.created_at⟩

instance : IsTrans Row moreRecent :=
  ⟨fun _ _ _ h1 h2 => le_trans h2 h1⟩

/-- `db_fetch_last(limit)` (lines 238-245):
`SELECT * FROM earthquakes ORDER BY created_at DESC LIMIT ?`.  The sort
is modelled as a stable sort of the rows in rowid order; SQLite
guarantees no particular order among `created_at` ties. -/
def db_fetch_last (limit : ℕ) (store : List Row) : List Row :=
  (List.insertionSort moreRecent store).take limit

/-- `api_get` (lines 114-125): an `error` argument models a transport
error, a non-2xx status or an unparsable payload; otherwise the decoded
JSON payload is inspected — a dict whose `result` key holds a list
yields that list, a bare list yields itself, anything else yields `[]`. -/
def api_get : Except Unit PyVal → List PyVal
  | .error _ => []
  | .ok js =>
    match js with
    | vdict kvs =>
      match assocLookup kvs kResult with
      | some (vlist xs) => xs
      | _ => []
    | vlist xs => xs
    | _ => []

/-- `fetch_live_earthquakes` (line 127): delegates to `api_get`. -/
def fetch_live_earthquakes (resp : Except Unit PyVal) : List PyVal :=
  api_get resp

/-- `fetch_archive_earthquakes` (line 130): delegates to `api_get`. -/
def fetch_archive_earthquakes (resp : Except Unit PyVal) : List PyVal :=
  api_get resp

/-- Settings key for the UI theme. -/
def kTheme : PyScalar := sstr ("theme")

/-- Settings key for the notification magnitude threshold. -/
def kThreshold : PyScalar := sstr ("mag_threshold_for_notification")

/-- Settings key for the auto-refresh interval in minutes. -/
def kAutoRefresh : PyScalar := sstr ("auto_refresh_minutes")

/-- Settings key for the minimum displayed magnitude on the map. -/
def kMapMinMag : PyScalar := sstr ("map_min_mag")

/-- `DEFAULT_SETTINGS` (deprem.py lines 73-78). -/
def DEFAULT_SETTINGS : List (PyScalar × PyVal) :=
  [(kTheme, vstr ("dark")),
   (kThreshold, vnum ((11 : ℚ) / 2)),
   (kAutoRefresh, vnum 5),
   (kMapMinMag, vnum 0)]

/-- `float(self.settings.get("mag_threshold_for_notification", 5.5))`
inside `try/except`, falling back to `5.5` (lines 735-736). -/
def notifThreshold (settings : List (PyScalar × PyVal)) : ℚ :=
  match floatOf (assocLookupD settings kThreshold (vnum ((11 : ℚ) / 2))) with
  | .ok q => q
  | .error _ => (11 : ℚ) / 2

/-- `float(top.get("mag") or 0)` for the first element of the live feed
(line 738); an `error` models the exception that aborts `refresh_all`. -/
def headMag (top : PyVal) : Except Unit ℚ := do
  let v ← pyGet top kMag
  floatOf (pyOr v (vnum 0))

/-- The store effect of `NearTab.refresh_data` (lines 512-518): when the
store is empty it fetches the live feed again (modelled by the same
`live` stub) and upserts it; the returned numbers count the extra
network call and store write. -/
def nearTabRefresh (now : ℤ) (live : List PyVal) (store : List Row) :
    List Row × ℕ × ℕ :=
  if (db_fetch_last 200 store).isEmpty then
    (db_upsert_earthquakes now live store, 1, 1)
  else (store, 0, 0)

/-- Observable outcome of one `MainWindow.refresh_all` run: the final
table contents, the rows handed to the subscriber tabs (`none` when the
outer `except` fired before the hand-off), whether the tray notification
fired, whether the outer `except` fired, and how many network calls and
store writes the run performed. -/
structure RefreshResult where
  store : List Row
  distributed : Option (List Row)
  notified : Bool
  failed : Bool
  netCalls : ℕ
  storeWrites : ℕ

/-- The non-empty-feed branch of `MainWindow.refresh_all`
(lines 730-753): the feed is upserted and the first element's magnitude
is compared against the configured threshold; then the latest 200 rows
are reloaded from the store and handed to the subscriber tabs
(`NearTab.refresh_data` reloads — and, on an empty store, refetches —
on its own).  An `error` from `headMag` models the exception caught by
the outer `except` after the upsert already committed. -/
def refresh_cons (now : ℤ) (top : PyVal) (rest : List PyVal)
    (settings : List (PyScalar × PyVal)) (store : List Row) : RefreshResult :=
  let store1 := db_upsert_earthquakes now (top :: rest) store
  let th := notifThreshold settings
  match headMag top with
  | .error _ => ⟨store1, none, false, true, 1, 1⟩
  | .ok m =>
    let rows := db_fetch_last 200 store1
    let near := nearTabRefresh now (top :: rest) store1
    ⟨near.1, some rows, decide (th ≤ m), false, 1 + near.2.1, 1 + near.2.2⟩

/-- `MainWindow.refresh_all`, dispatching on whether the live feed is
empty (`if live:` at line 733). -/
def refresh_all (now : ℤ) (live : List PyVal)
    (settings : List (PyScalar × PyVal)) (store : List Row) : RefreshResult :=
  match live with
  | [] =>
    let rows := db_fetch_last 200 store
    let near := nearTabRefresh now [] store
    ⟨near.1, some rows, false, false, 1 + near.2.1, near.2.2⟩
  | top :: rest => refresh_cons now top rest settings store

/-- The state visible to the refresh triggers: whether the map-generation
worker thread is running (`MapTab.thread.isRunning()`), the store, and
counters of the network calls and store writes performed so far. -/
structure SysState where
  mapRunning : Bool
  store : List Row
  netCalls : ℕ
  storeWrites : ℕ

/-- `MapTab.refresh` (lines 404-430) as seen at trigger time: when the
worker thread is still running the call returns immediately (lines
405-406); otherwise a new worker is started (the Boolean result).  The
worker's own fetch/upsert happen later on the worker thread, not at
trigger time. -/
def mapTab_refresh (s : SysState) : SysState × Bool :=
  if s.mapRunning then (s, false)
  else (⟨true, s.store, s.netCalls, s.storeWrites⟩, true)

/-- A timer tick or a manual "Tümünü Yenile" click: runs
`MainWindow.refresh_all` unconditionally; `MapTab.set_data` then invokes
`MapTab.refresh`, which is guarded by the worker-running check (skipped
when the outer `except` fired first). -/
def trigger_refresh (now : ℤ) (live : List PyVal)
    (settings : List (PyScalar × PyVal)) (s : SysState) : SysState :=
  let r := refresh_all now live settings s.store
  let s1 : SysState :=
    ⟨s.mapRunning, r.store, s.netCalls + r.netCalls, s.storeWrites + r.storeWrites⟩
  if r.failed then s1 else (mapTab_refresh s1).1

/-- Values Python can use as dict keys (hashable); lists and dicts are
unhashable. -/
def toScalar : PyVal → Option PyScalar
  | vnone => some snone
  | vbool b => some (sbool b)
  | vnum q => some (snum q)
  | vstr s => some (sstr s)
  | _ => none

/-- One element of a sequence fed to `dict.update`: CPython accepts any
iterable of length two — a two-element list (whose first component must
be hashable), a two-character string (key and value are its characters),
or a two-entry dict (iterating a dict yields its keys, so both key and
value come from the element's keys).  Anything else raises. -/
def elemPair : PyVal → Except Unit (PyScalar × PyVal)
  | vlist [k, v] =>
    match toScalar k with
    | some ks => .ok (ks, v)
    | none => .error ()
  | vstr s =>
    match s.data with
    | [c1, c2] => .ok (sstr (String.singleton c1), vstr (String.singleton c2))
    | _ => .error ()
  | vdict [(k1, _), (k2, _)] => .ok (k1, scalarVal k2)
  | _ => .error ()

/-- `d[k] = v` on an insertion-ordered dict: overwrite in place when the
key exists, append otherwise. -/
def updEntry (d : List (PyScalar × PyVal)) (kv : PyScalar × PyVal) :
    List (PyScalar × PyVal) :=
  if d.any (fun p => p.1 = kv.1) then
    d.map (fun p => if p.1 = kv.1 then (p.1, kv.2) else p)
  else d ++ [kv]

/-- `d.update(s)`: a dict argument merges its entries; a list argument
merges its elements as key/value pairs (see `elemPair`); an empty string
is an empty iterable and is accepted; everything else raises. -/
def dictUpdate (d : List (PyScalar × PyVal)) :
    PyVal → Except Unit (List (PyScalar × PyVal))
  | vdict kvs => .ok (kvs.foldl updEntry d)
  | vlist xs =>
    xs.foldlM (fun acc x => (elemPair x).map (fun p => updEntry acc p)) d
  | vstr s => if s.isEmpty then .ok d else .error ()
  | _ => .error ()

/-- `load_settings` (lines 97-105).  The argument models the settings
file: `none` when the file does not exist, `some (.error ())` when its
contents fail to parse as JSON, `some (.ok v)` when they parse to `v`.
Any exception inside the `try` — parse failure or `d.update(s)` raising
— falls through to a fresh copy of the defaults. -/
def load_settings (file : Option (Except Unit PyVal)) :
    List (PyScalar × PyVal) :=
  match file with
  | none => DEFAULT_SETTINGS
  | some (.error _) => DEFAULT_SETTINGS
  | some (.ok s) =>
    match dictUpdate DEFAULT_SETTINGS s with
    | .ok d => d
    | .error _ => DEFAULT_SETTINGS

theorem except_bind_ok {α β : Type} {x : Except Unit α} {f : α → Except Unit β}
    {b : β} (h : x >>= f = .ok b) : ∃ a, x = .ok a ∧ f a = .ok b := by
  cases x with
  | ok a => exact ⟨a, rfl, h⟩
  | error e => exact Except.noConfusion h

/-- Claim C4: the data-source fetch never raises; transport errors,
non-2xx statuses and unparsable payloads yield `[]`; a bare list yields
itself; an envelope dict whose `result` key holds a list yields that
list; every other payload yields `[]`. -/
theorem C4_api_get_shape :
    api_get (.error ()) = [] ∧
    (∀ xs, api_get (.ok (vlist xs)) = xs) ∧
    (∀ kvs xs, assocLookup kvs kResult = some (vlist xs) →
      api_get (.ok (vdict kvs)) = xs) ∧
    (∀ kvs, (∀ xs, assocLookup kvs kResult ≠ some (vlist xs)) →
      api_get (.ok (vdict kvs)) = []) ∧
    api_get (.ok vnone) = [] ∧
    (∀ b, api_get (.ok (vbool b)) = []) ∧
    (∀ q, api_get (.ok (vnum q)) = []) ∧
    (∀ s, api_get (.ok (vstr s)) = []) := by
  have e1 : ∀ kvs, api_get (.ok (vdict kvs)) =
      (match assocLookup kvs kResult with
       | some (vlist l) => l
       | _ => []) := fun kvs => rfl
  refine ⟨rfl, fun xs => rfl, fun kvs xs h => ?_, fun kvs h => ?_,
    rfl, fun b => rfl, fun q => rfl, fun s => rfl⟩
  · rw [e1, h]
  · rw [e1]
    cases hl : assocLookup kvs kResult with
    | none => rfl
    | some v =>
      cases v with
      | vlist xs => exact absurd hl (h xs)
      | vnone => rfl
      | vbool b => rfl
      | vnum q => rfl
      | vstr s => rfl
      | vdict kvs2 => rfl

theorem C4_api_get_shape_witness :
    api_get (.ok (vdict [(kResult, vlist [vnum 1])])) = [vnum 1] ∧
    api_get (.ok (vdict [(kResult, vnum 3)])) = [] :=
  ⟨C4_api_get_shape.2.2.1 [(kResult, vlist [vnum 1])] [vnum 1] rfl,
   C4_api_get_shape.2.2.2.1 [(kResult, vnum 3)]
     (fun xs h => by simp [assocLookup] at h)⟩

/-- Claim C5: a refresh cycle whose fetch returns the empty sequence
leaves the store unchanged, does not fail, does not notify, and still
distributes the store's latest 200 rows to the subscriber tabs. -/
theorem C5_empty_fetch_is_noop (now : ℤ) (settings : List (PyScalar × PyVal))
    (store : List Row) :
    (refresh_all now [] settings store).store = store ∧
    (refresh_all now [] settings store).distributed =
      some (db_fetch_last 200 store) ∧
    (refresh_all now [] settings store).failed = false ∧
    (refresh_all now [] settings store).notified = false := by
  refine ⟨?_, rfl, rfl, rfl⟩
  show (nearTabRefresh now [] store).1 = store
  unfold nearTabRefresh
  split
  · show db_upsert_earthquakes now [] store = store
    rfl
  · rfl

theorem C5_empty_fetch_is_noop_witness :
    (refresh_all 0 [] DEFAULT_SETTINGS []).store = [] ∧
    (refresh_all 0 [] DEFAULT_SETTINGS []).distributed = some [] :=
  ⟨(C5_empty_fetch_is_noop 0 DEFAULT_SETTINGS []).1,
   (C5_empty_fetch_is_noop 0 DEFAULT_SETTINGS []).2.1⟩

/-- Claim C6: in a cycle with a non-empty live feed whose first element
has magnitude `m`, the notification flag is set iff `m` meets the
configured threshold — for every tail of the feed and every store
contents, so neither the other records nor the store's ordering can
influence the decision. -/
theorem C6_notification_head_only (now : ℤ) (top : PyVal) (rest : List PyVal)
    (settings : List (PyScalar × PyVal)) (store : List Row) (m : ℚ)
    (hm : headMag top = .ok m) :
    ((refresh_all now (top :: rest) settings store).notified = true ↔
      notifThreshold settings ≤ m) := by
  show (refresh_cons now top rest settings store).notified = true ↔ _
  unfold refresh_cons
  rw [hm]
  exact decide_eq_true_iff

theorem C6_notification_head_only_witness :
    (refresh_all 0 [vdict [(kEarthquakeId, vstr ("a")), (kMag, vnum 6)]]
      DEFAULT_SETTINGS []).notified = true :=
  (C6_notification_head_only 0
    (vdict [(kEarthquakeId, vstr ("a")), (kMag, vnum 6)])
    [] DEFAULT_SETTINGS [] 6 rfl).mpr
    (by rw [show notifThreshold DEFAULT_SETTINGS = (11 : ℚ) / 2 from rfl]; norm_num)

/-- A well-formed live record used in concrete runs. -/
def liveRecA : PyVal :=
  vdict [(kEarthquakeId, vstr ("a")), (kMag, vnum 3), (kCreatedAt, vnum 1000)]

/-- Claim C7 counterexample: with the map-generation worker still
running (`thread.isRunning()`, i.e. a cycle in a non-Idle state), a
timer tick or manual refresh still runs `MainWindow.refresh_all` in
full — one network call and one store write that changes the store —
so the second trigger is not a no-op; only the map-generation stage is
skipped. -/
theorem C7_counterexample_trigger_not_noop :
    (trigger_refresh 0 [liveRecA] DEFAULT_SETTINGS ⟨true, [], 0, 0⟩).netCalls
      = 1 ∧
    (trigger_refresh 0 [liveRecA] DEFAULT_SETTINGS ⟨true, [], 0, 0⟩).storeWrites
      = 1 ∧
    storedIds (trigger_refresh 0 [liveRecA] DEFAULT_SETTINGS
      ⟨true, [], 0, 0⟩).store = ["a"] :=
  ⟨rfl, rfl, rfl⟩

/-- Claim C7 (amended): the only in-flight guard in the code is
`MapTab.refresh`: while the map worker thread is running, a new map
refresh returns immediately, starts no worker and changes nothing.
`MainWindow.refresh_all` itself has no such guard (see the
counterexample); it is serialised only by running synchronously on the
UI thread. -/
theorem C7_map_refresh_guard (s : SysState) (h : s.mapRunning = true) :
    mapTab_refresh s = (s, false) := by
  simp [mapTab_refresh, h]

theorem C7_map_refresh_guard_witness :
    mapTab_refresh ⟨true, [], 0, 0⟩ = (⟨true, [], 0, 0⟩, false) :=
  C7_map_refresh_guard ⟨true, [], 0, 0⟩ rfl

/-- The parse of a settings file holding the JSON array `[["x", 1]]`. -/
def cfgPairArray : PyVal := vlist [vlist [vstr ("x"), vnum 1]]

/-- Claim C9 counterexample: a settings file holding `[["x", 1]]` — 
valid JSON, but not a JSON object — is accepted by `d.update(s)` and
merged, so loading does not return exactly the documented defaults. -/
theorem C9_counterexample_array_file :
    load_settings (some (.ok cfgPairArray)) ≠ DEFAULT_SETTINGS := by
  intro h
  have h2 : (load_settings (some (.ok cfgPairArray))).length =
      DEFAULT_SETTINGS.length := congrArg List.length h
  rw [show (load_settings (some (.ok cfgPairArray))).length = 5 from rfl,
    show DEFAULT_SETTINGS.length = 4 from rfl] at h2
  exact absurd h2 (by norm_num)

/-- Claim C9 (amended): loading configuration never fails startup — a
missing file, a file whose contents fail to parse as JSON, and a parsed
value that the key merge rejects all yield exactly the documented
defaults (threshold 5.5, refresh every 5 minutes, minimum magnitude
0.0, dark theme); a parsable non-object that `dict.update` accepts is
instead merged over the defaults (see the counterexample). -/
theorem C9_load_settings_defaults :
    load_settings none = DEFAULT_SETTINGS ∧
    load_settings (some (.error ())) = DEFAULT_SETTINGS ∧
    (∀ v, dictUpdate DEFAULT_SETTINGS v = .error () →
      load_settings (some (.ok v)) = DEFAULT_SETTINGS) ∧
    assocLookup DEFAULT_SETTINGS kThreshold = some (vnum ((11 : ℚ) / 2)) ∧
    assocLookup DEFAULT_SETTINGS kAutoRefresh = some (vnum 5) ∧
    assocLookup DEFAULT_SETTINGS kMapMinMag = some (vnum 0) ∧
    assocLookup DEFAULT_SETTINGS kTheme = some (vstr ("dark")) := by
  refine ⟨rfl, rfl, fun v h => ?_, rfl, rfl, rfl, rfl⟩
  show (match dictUpdate DEFAULT_SETTINGS v with
        | .ok d => d
        | .error _ => DEFAULT_SETTINGS) = DEFAULT_SETTINGS
  rw [h]

theorem C9_load_settings_defaults_witness :
    load_settings (some (.ok (vnum 3))) = DEFAULT_SETTINGS :=
  C9_load_settings_defaults.2.2.1 (vnum 3) rfl

theorem normalizeRecord_ok_parts {now : ℤ} {e : PyVal} {r : Row}
    (h : normalizeRecord now e = .ok r) :
    gidOf e = .ok r.earthquake_id ∧ magOfRaw e = .ok r.mag ∧
    depthOf e = .ok r.depth ∧ coordsOf e = .ok (r.lon, r.lat) ∧
    createdAtOf now e = .ok r.created_at := by
  unfold normalizeRecord at h
  obtain ⟨gid, hgid, h⟩ := except_bind_ok h
  obtain ⟨prov, hprov, h⟩ := except_bind_ok h
  obtain ⟨title, htitle, h⟩ := except_bind_ok h
  obtain ⟨date, hdate, h⟩ := except_bind_ok h
  obtain ⟨mag, hmag, h⟩ := except_bind_ok h
  obtain ⟨depth, hdepth, h⟩ := except_bind_ok h
  obtain ⟨lonlat, hlonlat, h⟩ := except_bind_ok h
  obtain ⟨ca, hca, h⟩ := except_bind_ok h
  obtain ⟨lp, hlp, h⟩ := except_bind_ok h
  obtain ⟨cc, hcc, h⟩ := except_bind_ok h
  obtain ⟨ccName, hn1, h⟩ := except_bind_ok h
  obtain ⟨ccCode, hn2, h⟩ := except_bind_ok h
  obtain ⟨ccDist, hn3, h⟩ := except_bind_ok h
  obtain ⟨ccPop, hn4, h⟩ := except_bind_ok h
  obtain ⟨epi, hn5, h⟩ := except_bind_ok h
  obtain ⟨epiName, hn6, h⟩ := except_bind_ok h
  obtain ⟨airports, hn7, h⟩ := except_bind_ok h
  split at h
  · cases h
    exact ⟨hgid, hmag, hdepth, hlonlat, hca⟩
  · exact Except.noConfusion h

/-- A raw record whose `mag` value is truthy but not coercible by
`float()` (Python: `float([1])` raises `TypeError`). -/
def badMagRec : PyVal :=
  vdict [(kEarthquakeId, vstr ("bad1")), (kMag, vlist [vnum 1]),
         (kCreatedAt, vnum 500)]

/-- Claim C1 counterexample: a record whose `mag` holds a truthy
wrong-typed value is not degraded to `0.0` — `float()` raises, the
per-record `except` fires, and the record is dropped entirely, so the
store stays empty. -/
theorem C1_counterexample_wrong_typed_mag_dropped :
    db_upsert_earthquakes 0 [badMagRec] [] = [] := rfl

/-- Claim C1 (amended): normalisation never raises to the caller, and a
missing key or a falsy value for magnitude or depth, and a short
coordinate array, degrade to the default `0.0` in the stored entity;
but a truthy wrong-typed value that `float()` cannot coerce makes that
one record be skipped (logged), rather than stored with a default —
see the counterexample. -/
theorem C1_normalize_defensive (now : ℤ) :
    (∀ e r v, normalizeRecord now e = .ok r → pyGet e kMag = .ok v →
      truthy v = false → r.mag = 0) ∧
    (∀ e r v, normalizeRecord now e = .ok r → pyGet e kDepth = .ok v →
      truthy v = false → r.depth = 0) ∧
    (∀ e r g geo, normalizeRecord now e = .ok r →
      pyGetD e kGeojson (vdict []) = .ok g →
      pyGetD g kCoordinates (vlist [vnum 0, vnum 0]) = .ok geo →
      pyLen geo = .ok 0 → r.lon = 0 ∧ r.lat = 0) ∧
    (∀ e r g geo n, normalizeRecord now e = .ok r →
      pyGetD e kGeojson (vdict []) = .ok g →
      pyGetD g kCoordinates (vlist [vnum 0, vnum 0]) = .ok geo →
      pyLen geo = .ok n → n ≤ 1 → r.lat = 0) ∧
    (∀ e s, normalizeRecord now e = .error () →
      db_upsert_earthquakes now [e] s = s) := by
  refine ⟨?_, ?_, ?_, ?_, ?_⟩
  · intro e r v h hv ht
    have hm := (normalizeRecord_ok_parts h).2.1
    unfold magOfRaw at hm
    obtain ⟨v2, hv2, hf⟩ := except_bind_ok hm
    rw [hv] at hv2
    injection hv2 with hv2
    subst hv2
    rw [show pyOr v (vnum 0) = vnum 0 by unfold pyOr; rw [ht]; rfl] at hf
    injection hf with hf
    exact hf.symm
  · intro e r v h hv ht
    have hm := (normalizeRecord_ok_parts h).2.2.1
    unfold depthOf at hm
    obtain ⟨v2, hv2, hf⟩ := except_bind_ok hm
    rw [hv] at hv2
    injection hv2 with hv2
    subst hv2
    rw [show pyOr v (vnum 0) = vnum 0 by unfold pyOr; rw [ht]; rfl] at hf
    injection hf with hf
    exact hf.symm
  · intro e r g geo h hg hgeo hlen
    have hm := (normalizeRecord_ok_parts h).2.2.2.1
    unfold coordsOf at hm
    obtain ⟨g2, hg2, hm⟩ := except_bind_ok hm
    rw [hg] at hg2; injection hg2 with hg2; subst hg2
    obtain ⟨geo2, hgeo2, hm⟩ := except_bind_ok hm
    rw [hgeo] at hgeo2; injection hgeo2 with hgeo2; subst hgeo2
    obtain ⟨n2, hn2, hm⟩ := except_bind_ok hm
    rw [hlen] at hn2; injection hn2 with hn2; subst hn2
    rw [if_neg (lt_irrefl 0), if_neg (by norm_num : ¬(1 : ℕ) < 0)] at hm
    have hm2 : (Except.ok ((0 : ℚ), (0 : ℚ)) : Except Unit (ℚ × ℚ)) =
        .ok (r.lon, r.lat) := hm
    injection hm2 with h3
    injection h3 with h4 h5
    exact ⟨h4.symm, h5.symm⟩
  · intro e r g geo n h hg hgeo hlen hn
    have hm := (normalizeRecord_ok_parts h).2.2.2.1
    unfold coordsOf at hm
    obtain ⟨g2, hg2, hm⟩ := except_bind_ok hm
    rw [hg] at hg2; injection hg2 with hg2; subst hg2
    obtain ⟨geo2, hgeo2, hm⟩ := except_bind_ok hm
    rw [hgeo] at hgeo2; injection hgeo2 with hgeo2; subst hgeo2
    obtain ⟨n2, hn2, hm⟩ := except_bind_ok hm
    rw [hlen] at hn2; injection hn2 with hn2; subst hn2
    rw [if_neg (by omega : ¬1 < n)] at hm
    obtain ⟨lon, hlon, hm⟩ := except_bind_ok hm
    have hm2 : (Except.ok (lon, (0 : ℚ)) : Except Unit (ℚ × ℚ)) =
        .ok (r.lon, r.lat) := hm
    injection hm2 with h3
    injection h3 with h4 h5
    exact h5.symm
  · intro e s h
    show (match normalizeRecord now e with
          | .ok r => upsertRow r s
          | .error _ => s) = s
    rw [h]

/-- A raw record with a missing `mag`, a falsy `depth` and a
one-element coordinate array. -/
def defaultedRec : PyVal :=
  vdict [(kEarthquakeId, vstr ("w1")), (kDepth, vnum 0),
         (kGeojson, vdict [(kCoordinates, vlist [vnum 7])]),
         (kCreatedAt, vnum 2)]

/-- The row `defaultedRec` normalises to. -/
def defaultedRow : Row :=
  ⟨"w1", vstr (""), vstr (""), vstr (""), 0, 0, 7, 0, 2,
   vnone, vnone, vnone, vnone, vnone, "[]"⟩

theorem C1_normalize_defensive_witness :
    defaultedRow.mag = 0 ∧ defaultedRow.depth = 0 ∧ defaultedRow.lat = 0 ∧
    db_upsert_earthquakes 0 [badMagRec] [] = [] :=
  ⟨(C1_normalize_defensive 0).1 defaultedRec defaultedRow vnone rfl rfl rfl,
   (C1_normalize_defensive 0).2.1 defaultedRec defaultedRow (vnum 0) rfl rfl rfl,
   (C1_normalize_defensive 0).2.2.2.1 defaultedRec defaultedRow
     (vdict [(kCoordinates, vlist [vnum 7])]) (vlist [vnum 7]) 1
     rfl rfl rfl rfl (le_refl 1),
   (C1_normalize_defensive 0).2.2.2.2 badMagRec [] rfl⟩

theorem storedIds_upsertRow_mem {r : Row} {store : List Row}
    (h : store.any (fun x => x.earthquake_id = r.earthquake_id) = true) :
    storedIds (upsertRow r store) = storedIds store := by
  unfold upsertRow
  rw [if_pos h]
  simp only [storedIds, List.map_map]
  apply List.map_congr_left
  intro x _
  by_cases hk : x.earthquake_id = r.earthquake_id
  · simp [Function.comp, hk]
  · simp [Function.comp, hk]

theorem storedIds_upsertRow_not_mem {r : Row} {store : List Row}
    (h : store.any (fun x => x.earthquake_id = r.earthquake_id) = false) :
    storedIds (upsertRow r store) = storedIds store ++ [r.earthquake_id] := by
  unfold upsertRow
  rw [if_neg (by simp [h])]
  simp [storedIds]

theorem uniqueKeys_upsertRow {r : Row} {store : List Row}
    (h : uniqueKeys store) : uniqueKeys (upsertRow r store) := by
  by_cases ha : store.any (fun x => x.earthquake_id = r.earthquake_id) = true
  · unfold uniqueKeys
    rw [storedIds_upsertRow_mem ha]
    exact h
  · have hf : store.any (fun x => x.earthquake_id = r.earthquake_id) = false :=
      Bool.eq_false_iff.mpr ha
    have hnot : r.earthquake_id ∉ storedIds store := by
      intro hmem
      simp only [storedIds, List.mem_map] at hmem
      obtain ⟨x, hx, hkey⟩ := hmem
      rw [List.any_eq_false] at hf
      exact absurd hkey (by simpa using hf x hx)
    unfold uniqueKeys
    rw [storedIds_upsertRow_not_mem hf,
      List.Perm.nodup_iff (List.perm_append_singleton _ _)]
    exact List.nodup_cons.mpr ⟨hnot, h⟩

/-- Claim C8 (amended): upserting preserves key uniqueness, so after any
sequence of upserts starting from a store with unique ids (in particular
the empty store) no two stored records share an id; the id may be empty,
though — a record with no `earthquake_id` is stored under the id `""`
(see the counterexample). -/
theorem C8_ids_unique (now : ℤ) (items : List PyVal) (store : List Row)
    (h : uniqueKeys store) :
    uniqueKeys (db_upsert_earthquakes now items store) := by
  induction items generalizing store with
  | nil => exact h
  | cons e rest ih =>
    have e1 : db_upsert_earthquakes now (e :: rest) store =
        db_upsert_earthquakes now rest
          (match normalizeRecord now e with
           | .ok r => upsertRow r store
           | .error _ => store) := rfl
    rw [e1]
    cases hn : normalizeRecord now e with
    | ok r => exact ih _ (uniqueKeys_upsertRow h)
    | error u => exact ih _ h

theorem C8_ids_unique_witness :
    uniqueKeys (db_upsert_earthquakes 0 [liveRecA, liveRecA, badMagRec] []) :=
  C8_ids_unique 0 [liveRecA, liveRecA, badMagRec] [] List.nodup_nil

/-- A raw record with no `earthquake_id` at all. -/
def noIdRec : PyVal := vdict [(kTitle, vstr ("somewhere")), (kCreatedAt, vnum 7)]

/-- Claim C8 counterexample: a record with no `earthquake_id` is not
rejected — it is stored under the empty id `""`, violating the
non-empty-id invariant. -/
theorem C8_counterexample_empty_id_stored :
    storedIds (db_upsert_earthquakes 0 [noIdRec] []) = [""] := rfl

theorem rowsWithId_nil_of_no_match {t : List Row} {k : String}
    (h : ∀ y ∈ t, y.earthquake_id ≠ k) : rowsWithId t k = [] := by
  unfold rowsWithId
  rw [List.filter_eq_nil]
  intro y hy
  simpa using h y hy

theorem map_replace_of_no_match {r : Row} {t : List Row}
    (h : ∀ y ∈ t, y.earthquake_id ≠ r.earthquake_id) :
    t.map (fun x => if x.earthquake_id = r.earthquake_id then r else x) = t := by
  calc t.map (fun x => if x.earthquake_id = r.earthquake_id then r else x)
      = t.map id := List.map_congr_left (fun y hy => by simp [h y hy])
    _ = t := List.map_id t

theorem rowsWithId_map_replace {r : Row} : ∀ {store : List Row},
    uniqueKeys store →
    store.any (fun x => x.earthquake_id = r.earthquake_id) = true →
    rowsWithId
      (store.map (fun x => if x.earthquake_id = r.earthquake_id then r else x))
      r.earthquake_id = [r] := by
  intro store
  induction store with
  | nil => intro _ ha; simp at ha
  | cons x t ih =>
    intro hu ha
    have hu2 : uniqueKeys t := by
      have := hu
      unfold uniqueKeys storedIds at this
      rw [List.map_cons, List.nodup_cons] at this
      exact this.2
    by_cases hk : x.earthquake_id = r.earthquake_id
    · have hnomatch : ∀ y ∈ t, y.earthquake_id ≠ r.earthquake_id := by
        intro y hy hkey
        have := hu
        unfold uniqueKeys storedIds at this
        rw [List.map_cons, List.nodup_cons] at this
        exact this.1 (List.mem_map.mpr ⟨y, hy, by rw [hkey, ← hk]⟩)
      show rowsWithId
        ((if x.earthquake_id = r.earthquake_id then r else x) ::
          t.map (fun x => if x.earthquake_id = r.earthquake_id then r else x))
        r.earthquake_id = [r]
      rw [if_pos hk, map_replace_of_no_match hnomatch]
      unfold rowsWithId
      rw [List.filter_cons_of_pos (by simp)]
      rw [show List.filter (fun x => decide (x.earthquake_id = r.earthquake_id)) t
          = rowsWithId t r.earthquake_id from rfl,
        rowsWithId_nil_of_no_match hnomatch]
    · have ha2 : t.any (fun x => x.earthquake_id = r.earthquake_id) = true := by
        rw [List.any_cons] at ha
        rcases Bool.or_eq_true_iff.mp ha with h1 | h1
        · exact absurd (of_decide_eq_true h1) hk
        · exact h1
      show rowsWithId
        ((if x.earthquake_id = r.earthquake_id then r else x) ::
          t.map (fun x => if x.earthquake_id = r.earthquake_id then r else x))
        r.earthquake_id = [r]
      rw [if_neg hk]
      unfold rowsWithId
      rw [List.filter_cons_of_neg (by simp [hk])]
      exact ih hu2 ha2

theorem rowsWithId_upsertRow {r : Row} {store : List Row}
    (h : uniqueKeys store) :
    rowsWithId (upsertRow r store) r.earthquake_id = [r] := by
  unfold upsertRow
  split
  · exact rowsWithId_map_replace h (by assumption)
  · rename_i ha
    have hf : ∀ y ∈ store, y.earthquake_id ≠ r.earthquake_id := by
      have ha2 : store.any (fun x => x.earthquake_id = r.earthquake_id) = false :=
        Bool.eq_false_iff.mpr ha
      rw [List.any_eq_false] at ha2
      intro y hy
      simpa using ha2 y hy
    unfold rowsWithId
    rw [List.filter_append,
      show List.filter (fun x => decide (x.earthquake_id = r.earthquake_id)) store
        = rowsWithId store r.earthquake_id from rfl,
      rowsWithId_nil_of_no_match hf]
    simp

/-- Claim C2: upserting `e` and then `e2` with the same id leaves
exactly one stored row for that id, and every non-key field of that row
is `e2`'s normalised value (`r2` carries provider, title, date,
magnitude, depth, coordinates, recordedAtEpoch, nearest-city fields,
epicentre name and the serialised airports list): last-write-wins full
replacement, no duplication, no merge. -/
theorem C2_upsert_last_write_wins (now now2 : ℤ) (e e2 : PyVal) (r r2 : Row)
    (store : List Row) (hu : uniqueKeys store)
    (h : normalizeRecord now e = .ok r) (h2 : normalizeRecord now2 e2 = .ok r2)
    (hk : r.earthquake_id = r2.earthquake_id) :
    rowsWithId (db_upsert_earthquakes now2 [e2]
      (db_upsert_earthquakes now [e] store)) r2.earthquake_id = [r2] ∧
    rowsWithId (db_upsert_earthquakes now2 [e2]
      (db_upsert_earthquakes now [e] store)) r.earthquake_id = [r2] := by
  have e1 : db_upsert_earthquakes now [e] store = upsertRow r store := by
    show (match normalizeRecord now e with
          | .ok r3 => upsertRow r3 store
          | .error _ => store) = upsertRow r store
    rw [h]
  have e2' : db_upsert_earthquakes now2 [e2] (upsertRow r store) =
      upsertRow r2 (upsertRow r store) := by
    show (match normalizeRecord now2 e2 with
          | .ok r3 => upsertRow r3 (upsertRow r store)
          | .error _ => upsertRow r store) = upsertRow r2 (upsertRow r store)
    rw [h2]
  rw [e1, e2', hk]
  exact ⟨rowsWithId_upsertRow (uniqueKeys_upsertRow hu),
    rowsWithId_upsertRow (uniqueKeys_upsertRow hu)⟩

/-- The first upserted entity of the C2 witness. -/
def recW1 : PyVal :=
  vdict [(kEarthquakeId, vstr ("w")), (kTitle, vstr ("old")),
         (kCreatedAt, vnum 1)]

/-- The second upserted entity of the C2 witness: same id, different
non-key fields. -/
def recW2 : PyVal :=
  vdict [(kEarthquakeId, vstr ("w")), (kTitle, vstr ("new")),
         (kMag, vnum 2), (kCreatedAt, vnum 9)]

/-- The row `recW1` normalises to. -/
def rowW1 : Row :=
  ⟨"w", vstr (""), vstr ("old"), vstr (""), 0, 0, 0, 0, 1,
   vnone, vnone, vnone, vnone, vnone, "[]"⟩

/-- The row `recW2` normalises to. -/
def rowW2 : Row :=
  ⟨"w", vstr (""), vstr ("new"), vstr (""), 2, 0, 0, 0, 9,
   vnone, vnone, vnone, vnone, vnone, "[]"⟩

theorem C2_upsert_last_write_wins_witness :
    rowsWithId (db_upsert_earthquakes 0 [recW2]
      (db_upsert_earthquakes 0 [recW1] [])) ("w") = [rowW2] :=
  (C2_upsert_last_write_wins 0 0 recW1 recW2 rowW1 rowW2 []
    List.nodup_nil rfl rfl rfl).1

/-- Claim C3 (amended): `db_fetch_last k` returns at most `k` rows,
sorted descending by `created_at`; but the query has no tie-break
column, so rows with equal `created_at` keep the store's internal row
order and the result is not a function of the store contents alone
(see the counterexample). -/
theorem C3_fetch_last_bounded_sorted (k : ℕ) (store : List Row) :
    (db_fetch_last k store).length ≤ k ∧
    List.Sorted moreRecent (db_fetch_last k store) :=
  ⟨List.length_take_le k _,
   List.Pairwise.sublist (List.take_sublist k _)
     (List.sorted_insertionSort moreRecent store)⟩

/-- A row with `created_at = 100` and id `t1`. -/
def rowT1 : Row :=
  ⟨"t1", vnone, vnone, vnone, 0, 0, 0, 0, 100,
   vnone, vnone, vnone, vnone, vnone, "[]"⟩

/-- A row with the same `created_at = 100` and id `t2`. -/
def rowT2 : Row :=
  ⟨"t2", vnone, vnone, vnone, 0, 0, 0, 0, 100,
   vnone, vnone, vnone, vnone, vnone, "[]"⟩

/-- Claim C3 counterexample: two stores with the same contents (a
permutation of the same two rows with equal `recordedAtEpoch`) give
differently ordered results — equal-timestamp rows are not ordered by
id, so the result is not a function of the store contents alone. -/
theorem C3_counterexample_tie_order :
    [rowT1, rowT2].Perm [rowT2, rowT1] ∧
    storedIds (db_fetch_last 2 [rowT1, rowT2]) = ["t1", "t2"] ∧
    storedIds (db_fetch_last 2 [rowT2, rowT1]) = ["t2", "t1"] :=
  ⟨List.Perm.swap rowT2 rowT1 [], rfl, rfl⟩

theorem any_key_eq_false_of_not_mem {t : List (PyScalar × PyVal)} {k : PyScalar}
    (h : k ∉ t.map Prod.fst) : t.any (fun p => p.1 = k) = false := by
  rw [List.any_eq_false]
  intro p hp
  simp only [decide_eq_true_eq]
  intro hk
  exact h (List.mem_map.mpr ⟨p, hp, hk⟩)

theorem assocLookup_none_of_any_false {d : List (PyScalar × PyVal)}
    {k : PyScalar} (h : d.any (fun p => p.1 = k) = false) :
    assocLookup d k = none := by
  induction d with
  | nil => rfl
  | cons p t ih =>
    obtain ⟨k1, v1⟩ := p
    rw [List.any_cons, Bool.or_eq_false_iff] at h
    unfold assocLookup
    rw [if_neg (by simpa using h.1)]
    exact ih h.2

theorem assocLookup_cons (p : PyScalar × PyVal) (t : List (PyScalar × PyVal))
    (k : PyScalar) :
    assocLookup (p :: t) k = if p.1 = k then some p.2 else assocLookup t k := rfl

theorem assocLookup_append_left_none {d1 d2 : List (PyScalar × PyVal)}
    {k : PyScalar} (h : assocLookup d1 k = none) :
    assocLookup (d1 ++ d2) k = assocLookup d2 k := by
  induction d1 with
  | nil => rfl
  | cons p t ih =>
    rw [List.cons_append, assocLookup_cons]
    rw [assocLookup_cons] at h
    by_cases hk : p.1 = k
    · rw [if_pos hk] at h; cases h
    · rw [if_neg hk] at h
      rw [if_neg hk]
      exact ih h

theorem assocLookup_map_replace_self {t : List (PyScalar × PyVal)}
    {k : PyScalar} {v : PyVal}
    (h : t.any (fun p => p.1 = k) = true) :
    assocLookup (t.map (fun p => if p.1 = k then (p.1, v) else p)) k
      = some v := by
  induction t with
  | nil => simp at h
  | cons p rest ih =>
    rw [List.map_cons, assocLookup_cons]
    by_cases hk : p.1 = k
    · rw [show (if p.1 = k then (p.1, v) else p) = (p.1, v) from if_pos hk]
      rw [if_pos hk]
    · rw [show (if p.1 = k then (p.1, v) else p) = p from if_neg hk]
      rw [if_neg hk]
      apply ih
      rw [List.any_cons] at h
      rcases Bool.or_eq_true_iff.mp h with h1 | h1
      · exact absurd (of_decide_eq_true h1) hk
      · exact h1

theorem assocLookup_map_replace_other {t : List (PyScalar × PyVal)}
    {k k2 : PyScalar} {v : PyVal} (hne : k2 ≠ k) :
    assocLookup (t.map (fun p => if p.1 = k then (p.1, v) else p)) k2
      = assocLookup t k2 := by
  induction t with
  | nil => rfl
  | cons p rest ih =>
    rw [List.map_cons, assocLookup_cons, assocLookup_cons]
    by_cases hk : p.1 = k
    · rw [show (if p.1 = k then (p.1, v) else p) = (p.1, v) from if_pos hk]
      have hne2 : ¬p.1 = k2 := by
        rw [hk]; exact fun hh => hne hh.symm
      rw [if_neg hne2, if_neg hne2]
      exact ih
    · rw [show (if p.1 = k then (p.1, v) else p) = p from if_neg hk]
      by_cases hk2 : p.1 = k2
      · rw [if_pos hk2, if_pos hk2]
      · rw [if_neg hk2, if_neg hk2]
        exact ih

theorem assocLookup_append_single_other {d : List (PyScalar × PyVal)}
    {k k2 : PyScalar} {v : PyVal} (hne : k ≠ k2) :
    assocLookup (d ++ [(k, v)]) k2 = assocLookup d k2 := by
  induction d with
  | nil =>
    show assocLookup [(k, v)] k2 = none
    rw [assocLookup_cons, if_neg hne]
    rfl
  | cons p t ih =>
    rw [List.cons_append, assocLookup_cons, assocLookup_cons]
    by_cases hk : p.1 = k2
    · rw [if_pos hk, if_pos hk]
    · rw [if_neg hk, if_neg hk]
      exact ih

theorem assocLookup_updEntry_self (d : List (PyScalar × PyVal)) (k : PyScalar)
    (v : PyVal) : assocLookup (updEntry d (k, v)) k = some v := by
  unfold updEntry
  split
  · exact assocLookup_map_replace_self (by assumption)
  · rename_i h
    have hn : assocLookup d k = none :=
      assocLookup_none_of_any_false (Bool.eq_false_iff.mpr h)
    rw [assocLookup_append_left_none hn]
    unfold assocLookup
    rw [if_pos rfl]

theorem assocLookup_updEntry_other {d : List (PyScalar × PyVal)}
    {k k2 : PyScalar} {v : PyVal} (hne : k ≠ k2) :
    assocLookup (updEntry d (k, v)) k2 = assocLookup d k2 := by
  unfold updEntry
  split
  · exact assocLookup_map_replace_other (Ne.symm hne)
  · exact assocLookup_append_single_other hne

theorem assocLookup_updEntry_isSome {d : List (PyScalar × PyVal)}
    {k2 : PyScalar} (kv : PyScalar × PyVal)
    (h : (assocLookup d k2).isSome) :
    (assocLookup (updEntry d kv) k2).isSome := by
  obtain ⟨k, v⟩ := kv
  by_cases hk : k = k2
  · subst hk
    rw [assocLookup_updEntry_self]
    rfl
  · rw [assocLookup_updEntry_other hk]
    exact h

theorem foldl_updEntry_not_mem : ∀ {kvs d : List (PyScalar × PyVal)}
    {k : PyScalar}, kvs.any (fun p => p.1 = k) = false →
    assocLookup (kvs.foldl updEntry d) k = assocLookup d k := by
  intro kvs
  induction kvs with
  | nil => intro d k _; rfl
  | cons p t ih =>
    intro d k h
    obtain ⟨k1, v1⟩ := p
    rw [List.any_cons, Bool.or_eq_false_iff] at h
    show assocLookup (t.foldl updEntry (updEntry d (k1, v1))) k = assocLookup d k
    rw [ih h.2, assocLookup_updEntry_other (by simpa using h.1)]

theorem foldl_updEntry_mem : ∀ {kvs d : List (PyScalar × PyVal)}
    {k : PyScalar} {v : PyVal}, (kvs.map Prod.fst).Nodup →
    assocLookup kvs k = some v →
    assocLookup (kvs.foldl updEntry d) k = some v := by
  intro kvs
  induction kvs with
  | nil => intro d k v _ h; cases h
  | cons p t ih =>
    intro d k v hnd hl
    obtain ⟨k1, v1⟩ := p
    rw [List.map_cons, List.nodup_cons] at hnd
    by_cases hk : k1 = k
    · subst hk
      have hvv : v1 = v := by
        unfold assocLookup at hl
        rw [if_pos rfl] at hl
        injection hl
      subst hvv
      show assocLookup (t.foldl updEntry (updEntry d (k1, v1))) k1 = some v1
      rw [foldl_updEntry_not_mem (any_key_eq_false_of_not_mem hnd.1),
        assocLookup_updEntry_self]
    · have hl2 : assocLookup t k = some v := by
        unfold assocLookup at hl
        rwa [if_neg hk] at hl
      show assocLookup (t.foldl updEntry (updEntry d (k1, v1))) k = some v
      exact ih hnd.2 hl2

theorem foldl_updEntry_isSome : ∀ {kvs d : List (PyScalar × PyVal)}
    {k2 : PyScalar}, (assocLookup d k2).isSome →
    (assocLookup (kvs.foldl updEntry d) k2).isSome := by
  intro kvs
  induction kvs with
  | nil => intro _ _ h; exact h
  | cons p t ih =>
    intro d k2 h
    exact ih (assocLookup_updEntry_isSome p h)

/-- Claim C10: loading a settings file that parses to a JSON object
merges it over the defaults key by key — every key present in the file
takes the file's value, every key absent from the file keeps its
default, and every documented default key is still present in the
result. -/
theorem C10_settings_merge (kvs : List (PyScalar × PyVal))
    (hnd : (kvs.map Prod.fst).Nodup) :
    (∀ k v, assocLookup kvs k = some v →
      assocLookup (load_settings (some (.ok (vdict kvs)))) k = some v) ∧
    (∀ k, kvs.any (fun p => p.1 = k) = false →
      assocLookup (load_settings (some (.ok (vdict kvs)))) k =
        assocLookup DEFAULT_SETTINGS k) ∧
    (∀ k, (assocLookup DEFAULT_SETTINGS k).isSome →
      (assocLookup (load_settings (some (.ok (vdict kvs)))) k).isSome) := by
  have hload : load_settings (some (.ok (vdict kvs))) =
      kvs.foldl updEntry DEFAULT_SETTINGS := rfl
  rw [hload]
  exact ⟨fun k v h => foldl_updEntry_mem hnd h,
         fun k h => foldl_updEntry_not_mem h,
         fun k h => foldl_updEntry_isSome h⟩

theorem C10_settings_merge_witness :
    assocLookup (load_settings (some (.ok (vdict [(kThreshold, vnum 7)]))))
      kThreshold = some (vnum 7) ∧
    assocLookup (load_settings (some (.ok (vdict [(kThreshold, vnum 7)]))))
      kTheme = assocLookup DEFAULT_SETTINGS kTheme ∧
    (assocLookup (load_settings (some (.ok (vdict [(kThreshold, vnum 7)]))))
      kMapMinMag).isSome :=
  ⟨(C10_settings_merge [(kThreshold, vnum 7)] (List.nodup_singleton _)).1
    kThreshold (vnum 7) rfl,
   (C10_settings_merge [(kThreshold, vnum 7)] (List.nodup_singleton _)).2.1
    kTheme rfl,
   (C10_settings_merge [(kThreshold, vnum 7)] (List.nodup_singleton _)).2.2
    kMapMinMag rfl⟩
